import Mathlib

/-!
Verification of the status-inference and reconnect-decision core of
forticlient-connector.py against its specification.

The Python source is shallowly embedded:
  - `identify_vpn_state` (source lines 825-980) becomes a pure function on an
    `Evidence` record that abstracts the raw UI signals the Python code has
    already gathered by line 944 (final button flags after the hierarchy merge
    of lines 895-901, and the accumulated `full_text` string);
  - `analyze_vpn_status_from_text` (lines 1210-1263) becomes a pure function
    on the scraped text;
  - the monitoring loop body of `monitor_vpn_connection` (lines 1276-1380)
    becomes a step function on a supervisor state, with the per-tick outcomes
    of the UI collaborator (probe results, raised exceptions, reacquisition
    success) supplied as an input record; raised Python exceptions are made
    explicit as `Option MonError` values so that catching is visible;
  - the `__main__` block (lines 1419-1428) becomes a function from the
    acquisition outcome to the observable process outcome.
Python `in` on strings is modelled by an executable substring test on the
underlying character lists.
-/

/-- Tri-state verdict carried in the `status` field of the dict returned by
`identify_vpn_state` (the Python strings "connected", "disconnected",
"unknown"). -/
inductive VpnStatus
  | connected
  | disconnected
  | unknown
  deriving DecidableEq

/-- Executable prefix test on character lists (needle first). -/
def listPre : List Char → List Char → Bool
  | [], _ => true
  | _ :: _, [] => false
  | a :: as, b :: bs => a == b && listPre as bs

/-- Executable substring test on character lists: does `needle` occur
contiguously inside the second list?  Models Python `needle in haystack`. -/
def listSub (needle : List Char) : List Char → Bool
  | [] => listPre needle []
  | c :: cs => listPre needle (c :: cs) || listSub needle cs

/-- Python `needle in hay` for strings. -/
def strIn (needle hay : String) : Bool :=
  listSub needle.data hay.data

/-- The fixed list `connected_indicators` (source lines 912-920; identical
list at lines 1216-1224). -/
def connected_indicators : List String :=
  ["VPN Connected", "Disconnect", "Duration", "Bytes Received", "Bytes Sent",
   "IP Address", "Username"]

/-- The fixed list `disconnected_indicators` (source lines 922-926; identical
list at lines 1227-1231). -/
def disconnected_indicators : List String :=
  ["Not Connected", "VPN Disconnected", "Connect"]

/-- The `strong_indicators` list of `analyze_vpn_status_from_text`
(source line 1255). -/
def strong_indicators : List String :=
  ["VPN Connected", "Duration", "Bytes Received", "IP Address", "Username"]

/-- `found_connected` as computed from the text alone
(source lines 928-931 and 1234-1237). -/
def foundConnectedText (t : String) : List String :=
  connected_indicators.filter (fun ind => strIn ind t)

/-- `found_disconnected` as computed from the text alone
(source lines 933-936 and 1239-1243). -/
def foundDisconnectedText (t : String) : List String :=
  disconnected_indicators.filter (fun ind => strIn ind t)

/-- Evidence snapshot available to `identify_vpn_state` once the UI probing of
lines 846-909 is done: the final values of `disconnect_button_found`,
`disconnect_button_enabled`, `connect_button_found`, `connect_button_enabled`
(after the hierarchy-button merge of lines 895-901), the accumulated
`full_text`, and the truthiness of `content_pane` (line 975; in the source
`find_content_pane` falls back to returning the window itself, so this is
always true there, but the branch is kept faithfully). -/
structure Evidence where
  disconnectButtonFound : Bool
  disconnectButtonEnabled : Bool
  connectButtonFound : Bool
  connectButtonEnabled : Bool
  fullText : String
  contentPaneTruthy : Bool
  deriving DecidableEq

/-- The `details` string of the result dict, abstracted as a tag that records
which branch of lines 945-979 produced the verdict, together with the matched
indicator lists interpolated into the message. -/
inductive Detail
  | disconnectActive
  | connectActive
  | textConnected (found : List String)
  | textDisconnected (found : List String)
  | explicitVpnConnected
  | connectionStats
  | disconnectPresent
  | contentPaneUnclear
  | noDetails
  deriving DecidableEq

/-- The dict returned by `identify_vpn_state` (source lines 833-837). -/
structure VpnStateResult where
  identified : Bool
  status : VpnStatus
  details : Detail
  deriving DecidableEq

/-- `found_connected` after the button augmentation of lines 939-940:
append "Disconnect" when the disconnect button was found directly and the
text scan had not already contributed it. -/
def foundConnected (ev : Evidence) : List String :=
  let base := foundConnectedText ev.fullText
  if ev.disconnectButtonFound && !(base.contains "Disconnect") then
    base ++ ["Disconnect"]
  else
    base

/-- `found_disconnected` after the button augmentation of lines 941-942. -/
def foundDisconnected (ev : Evidence) : List String :=
  let base := foundDisconnectedText ev.fullText
  if ev.connectButtonFound && !(base.contains "Connect") then
    base ++ ["Connect"]
  else
    base

/-- The decision chain of `identify_vpn_state` (source lines 944-980),
branch for branch. -/
def identify_vpn_state (ev : Evidence) : VpnStateResult :=
  let fc := foundConnected ev
  let fd := foundDisconnected ev
  if ev.disconnectButtonFound && ev.disconnectButtonEnabled then
    ⟨true, VpnStatus.connected, Detail.disconnectActive⟩
  else if ev.connectButtonFound && ev.connectButtonEnabled then
    ⟨true, VpnStatus.disconnected, Detail.connectActive⟩
  else if 2 ≤ fc.length then
    ⟨true, VpnStatus.connected, Detail.textConnected fc⟩
  else if 1 ≤ fd.length ∧ fc = [] then
    ⟨true, VpnStatus.disconnected, Detail.textDisconnected fd⟩
  else if strIn "VPN Connected" ev.fullText then
    ⟨true, VpnStatus.connected, Detail.explicitVpnConnected⟩
  else if strIn "Duration" ev.fullText &&
          (strIn "Bytes" ev.fullText || strIn "IP Address" ev.fullText) then
    ⟨true, VpnStatus.connected, Detail.connectionStats⟩
  else if ev.disconnectButtonFound then
    ⟨true, VpnStatus.connected, Detail.disconnectPresent⟩
  else if ev.contentPaneTruthy then
    ⟨false, VpnStatus.unknown, Detail.contentPaneUnclear⟩
  else
    ⟨false, VpnStatus.unknown, Detail.noDetails⟩

/-- The message of `analyze_vpn_status_from_text`, abstracted as a tag
recording the branch plus the interpolated indicator lists. -/
inductive AnalyzeRationale
  | noWindowText
  | connectedOnly (found : List String)
  | disconnectedOnly (found : List String)
  | likelyConnectedMixed (fc fd : List String)
  | ambiguous (fc fd : List String)
  | noClear
  deriving DecidableEq

/-- `analyze_vpn_status_from_text` (source lines 1210-1263): returns
`some true` for connected, `some false` for disconnected, `none` for
undetermined, plus the rationale. -/
def analyze_vpn_status_from_text (text : String) :
    Option Bool × AnalyzeRationale :=
  if text = "" then
    (none, AnalyzeRationale.noWindowText)
  else
    let fc := foundConnectedText text
    let fd := foundDisconnectedText text
    if fc ≠ [] ∧ fd = [] then
      (some true, AnalyzeRationale.connectedOnly fc)
    else if fd ≠ [] ∧ fc = [] then
      (some false, AnalyzeRationale.disconnectedOnly fd)
    else if fc ≠ [] ∧ fd ≠ [] then
      let foundStrong := strong_indicators.filter (fun ind => fc.contains ind)
      if foundStrong ≠ [] then
        (some true, AnalyzeRationale.likelyConnectedMixed fc fd)
      else
        (none, AnalyzeRationale.ambiguous fc fd)
    else
      (none, AnalyzeRationale.noClear)

/-- Modelled from the spec: the Status Cache of spec section 4.2
(`read`/`write`/`invalidate` with a TTL) does not appear in this version of
the source file; it is modelled faithfully from the spec words.  The entry
holds the last stored status and its timestamp. -/
structure CacheState where
  lastStatus : Option VpnStatus
  lastUpdatedAt : Nat
  deriving DecidableEq

/-- Modelled from the spec: cache created at supervisor start with no value. -/
def cacheInit : CacheState :=
  ⟨none, 0⟩

/-- Modelled from the spec: `write` only stores when the verdict status is
Connected; any other status is a no-op. -/
def cacheWrite (c : CacheState) (v : VpnStatus) (now : Nat) : CacheState :=
  if v = VpnStatus.connected then ⟨some VpnStatus.connected, now⟩ else c

/-- Modelled from the spec: `read` returns Connected only if a stored entry
exists and is within TTL; otherwise `none`, meaning re-probe. -/
def cacheRead (c : CacheState) (now ttl : Nat) : Option VpnStatus :=
  match c.lastStatus with
  | some VpnStatus.connected =>
      if now - c.lastUpdatedAt < ttl then some VpnStatus.connected else none
  | _ => none

/-- Modelled from the spec: `invalidate` unconditionally clears stored
state. -/
def cacheInvalidate (_c : CacheState) : CacheState :=
  ⟨none, 0⟩

/-- Outcome of `connect_to_vpn` as seen by the `__main__` block: the whole
body of `connect_to_vpn` sits inside one `try` whose handler (source lines
270-284) returns `(None, None)`, so the caller observes either a window
handle or `None`. -/
inductive AcqOutcome
  | ok (handle : Nat)
  | raisedInternally
  deriving DecidableEq

/-- `connect_to_vpn` at the granularity the `__main__` block observes
(source lines 268 and 284): a handle on success, `none` whenever any
exception reached the outer handler after the bounded retries. -/
def connect_to_vpn (o : AcqOutcome) : Option Nat :=
  match o with
  | AcqOutcome.ok h => some h
  | AcqOutcome.raisedInternally => none

/-- Observable outcome of the `__main__` block. -/
inductive MainOutcome
  | monitoring (handle : Nat)
  | exitCode (c : Nat)
  deriving DecidableEq

/-- The `__main__` block (source lines 1419-1428): on a handle it enters
`monitor_vpn_connection`; on `None` it logs "Failed to connect to VPN" and
the script ends normally, which in Python terminates the process with exit
status 0 (there is no `sys.exit` call anywhere in the file). -/
def script_main (o : AcqOutcome) : MainOutcome :=
  match connect_to_vpn o with
  | some h => MainOutcome.monitoring h
  | none => MainOutcome.exitCode 0

/-- Supervisor state of `monitor_vpn_connection`: the module global
`ALWAYS_SET_FOCUS` (source line 9, mutated at line 1319), the loop local
`consecutive_focus_needed` (line 1273), and the window/application handle the
loop holds (rebound at lines 1279 and 1374). -/
structure MonState where
  alwaysSetFocus : Bool
  consecutive_focus_needed : Nat
  handle : Nat
  deriving DecidableEq

/-- The threshold `max_consecutive_focus` (source line 1274). -/
def max_consecutive_focus : Nat := 3

/-- Exceptions that can be raised during one tick of the loop body and reach
the outer handler of line 1357. -/
inductive MonError
  | windowLookup
  | restoreFailed
  | focusOp
  | probeRaised
  | clickFailed
  deriving DecidableEq

/-- Environment input for one tick of the monitoring loop: what the UI
collaborator does at each call site of the tick body.  A `none` probe result
stands for `identify_vpn_state` raising. -/
structure TickInput where
  windowLookupFails : Bool
  minimized : Bool
  restoreFails : Bool
  lightProbe : Option VpnStateResult
  focusOpFails : Bool
  focusedProbe : Option VpnStateResult
  connectButtonFound : Bool
  clickFails : Bool
  reacquireOk : Bool
  newHandle : Nat
  deriving DecidableEq

/-- The non-focused status check (source lines 1294-1324): the inner
`try`/`except` around the light probe.  Returns the updated state and the
`need_to_set_focus` flag after this section.  A raised probe (`none`) is
caught by the inner handler of lines 1320-1324, which increments the counter
without touching `ALWAYS_SET_FOCUS`. -/
def lightPhase (s : MonState) (probe : Option VpnStateResult) :
    MonState × Bool :=
  match probe with
  | none =>
      ({ s with consecutive_focus_needed := s.consecutive_focus_needed + 1 },
       true)
  | some r =>
      if r.identified then
        if r.status = VpnStatus.connected then
          ({ s with consecutive_focus_needed := 0 }, false)
        else if r.status = VpnStatus.disconnected then
          ({ s with consecutive_focus_needed := 0 }, true)
        else
          (s, false)
      else
        ({ s with
            consecutive_focus_needed := s.consecutive_focus_needed + 1,
            alwaysSetFocus :=
              if max_consecutive_focus ≤ s.consecutive_focus_needed + 1 ∧
                 s.alwaysSetFocus = false then
                true
              else
                s.alwaysSetFocus },
       true)

/-- The focused section (source lines 1327-1353).  It never assigns
`consecutive_focus_needed` or `ALWAYS_SET_FOCUS`, so only the escaping
exception (if any) is returned: `set_focus`/`wait` can raise, the focused
`identify_vpn_state` can raise, and `connect_button.click()` can raise. -/
def focusedPhase (i : TickInput) : Option MonError :=
  if i.focusOpFails then
    some MonError.focusOp
  else
    match i.focusedProbe with
    | none => some MonError.probeRaised
    | some r =>
        if r.identified ∧ r.status = VpnStatus.disconnected then
          if i.connectButtonFound then
            if i.clickFails then some MonError.clickFailed else none
          else
            none
        else
          none

/-- The body of the outer `try` of one tick (source lines 1277-1355):
window lookup, minimized-restore handling (which forces focus and resets the
counter, line 1291), the optional light probe, and the optional focused
section.  Returns the state at exit together with the exception that escaped
to the outer handler, if any.  A `restore` failure escapes with the counter
untouched, since line 1291 runs after `restore`. -/
def tickBody (s : MonState) (i : TickInput) : MonState × Option MonError :=
  if i.windowLookupFails then
    (s, some MonError.windowLookup)
  else if i.minimized && i.restoreFails then
    (s, some MonError.restoreFailed)
  else
    let s0 := if i.minimized then { s with consecutive_focus_needed := 0 } else s
    let needFocus0 := s.alwaysSetFocus || i.minimized
    let step1 := if needFocus0 then (s0, true) else lightPhase s0 i.lightProbe
    if step1.2 then (step1.1, focusedPhase i) else (step1.1, none)

/-- The `except Exception` handler of the loop (source lines 1357-1378):
attempt to reconnect to the application; on success rebind the handle, on
failure log and fall through to the full-interval sleep.  Counter and flag
are untouched. -/
def reconnectHandler (s : MonState) (i : TickInput) : MonState :=
  if i.reacquireOk then { s with handle := i.newHandle } else s

/-- One full iteration of the `while True` loop: run the body; if an
exception escaped it, run the handler.  Either way the loop continues. -/
def monitorTick (s : MonState) (i : TickInput) : MonState :=
  match tickBody s i with
  | (s1, none) => s1
  | (s1, some _) => reconnectHandler s1 i

/-- One full iteration with the possibility of exception propagation made
explicit in the type: an uncaught exception would surface as `.error`.  The
outer handler of line 1357 catches every `MonError`, so both branches
produce `.ok`. -/
def monitorTickE (s : MonState) (i : TickInput) :
    Except MonError MonState :=
  match tickBody s i with
  | (s1, none) => Except.ok s1
  | (s1, some _) => Except.ok (reconnectHandler s1 i)

/-- `n` iterations of the monitoring loop under the input schedule `f`. -/
def monitorRun (s : MonState) (f : Nat → TickInput) : Nat → MonState
  | 0 => s
  | n + 1 => monitorTick (monitorRun s f n) (f n)

/-- `n` iterations in the exception-explicit semantics: an `.error` at any
tick would abort the whole run. -/
def monitorRunE (s : MonState) (f : Nat → TickInput) :
    Nat → Except MonError MonState
  | 0 => Except.ok s
  | n + 1 =>
      match monitorRunE s f n with
      | Except.error e => Except.error e
      | Except.ok s1 => monitorTickE s1 (f n)

/-- An unidentified probe result, as produced by the final fallthrough of
`identify_vpn_state`. -/
def probeUnknown : VpnStateResult :=
  ⟨false, VpnStatus.unknown, Detail.contentPaneUnclear⟩

/-- A confident connected probe result. -/
def probeConnected : VpnStateResult :=
  ⟨true, VpnStatus.connected, Detail.disconnectActive⟩

/-- A tick whose light probe returns unidentified and whose focused probe
also stays unidentified, with no failures anywhere. -/
def tickUnknown : TickInput :=
  ⟨false, false, false, some probeUnknown, false, some probeUnknown,
   false, false, false, 0⟩

/-- A tick whose light probe confidently reports connected. -/
def tickConnected : TickInput :=
  ⟨false, false, false, some probeConnected, false, some probeConnected,
   false, false, false, 0⟩

/-- A tick whose light probe raises (is caught by the inner handler of
lines 1320-1324) and whose focused section completes without incident. -/
def tickRaising : TickInput :=
  ⟨false, false, false, none, false, some probeUnknown,
   false, false, false, 0⟩

/-- A tick whose window lookup (source line 1279) raises, reaching the
outer handler; reacquisition succeeds with a fresh handle. -/
def tickLookupFail : TickInput :=
  ⟨true, false, false, none, false, none, false, false, true, 9⟩

/-- Evidence with mixed text indicators, none of them strong: the text
contains the connected indicators "Disconnect" and "Bytes Sent" and the
disconnected indicators "Not Connected" and "Connect", with no button found
directly. -/
def evMixedWeak : Evidence :=
  ⟨false, false, false, false, "Disconnect Bytes Sent Not Connected", true⟩

lemma foundConnectedText_length_le (ev : Evidence) :
    (foundConnectedText ev.fullText).length ≤ (foundConnected ev).length := by
  simp only [foundConnected]
  split_ifs
  · simp
  · exact le_refl _

lemma lightPhase_flag_mono (s : MonState) (p : Option VpnStateResult)
    (h : s.alwaysSetFocus = true) :
    ((lightPhase s p).1).alwaysSetFocus = true := by
  cases p with
  | none => simp [lightPhase, h]
  | some r =>
    simp only [lightPhase]
    split_ifs <;> simp [h]

lemma tickBody_flag_mono (s : MonState) (i : TickInput)
    (h : s.alwaysSetFocus = true) :
    ((tickBody s i).1).alwaysSetFocus = true := by
  simp only [tickBody]
  split_ifs <;> simp_all

lemma monitorTick_counter (s : MonState) (i : TickInput) :
    (monitorTick s i).consecutive_focus_needed =
      ((tickBody s i).1).consecutive_focus_needed := by
  unfold monitorTick
  cases htb : tickBody s i with
  | mk s1 e =>
    cases e with
    | none => rfl
    | some e =>
      show (reconnectHandler s1 i).consecutive_focus_needed =
        ((s1, some e).1).consecutive_focus_needed
      unfold reconnectHandler
      split <;> rfl

lemma monitorTick_flag (s : MonState) (i : TickInput) :
    (monitorTick s i).alwaysSetFocus = ((tickBody s i).1).alwaysSetFocus := by
  unfold monitorTick
  cases htb : tickBody s i with
  | mk s1 e =>
    cases e with
    | none => rfl
    | some e =>
      show (reconnectHandler s1 i).alwaysSetFocus =
        ((s1, some e).1).alwaysSetFocus
      unfold reconnectHandler
      split <;> rfl

lemma monitorTick_flag_mono (s : MonState) (i : TickInput)
    (h : s.alwaysSetFocus = true) :
    (monitorTick s i).alwaysSetFocus = true := by
  rw [monitorTick_flag]
  exact tickBody_flag_mono s i h

lemma tickBody_unidentified (s : MonState) (i : TickInput)
    (r : VpnStateResult) (hf : s.alwaysSetFocus = false)
    (h1 : i.windowLookupFails = false) (h2 : i.minimized = false)
    (h3 : i.lightProbe = some r) (h4 : r.identified = false) :
    (tickBody s i).1 =
      { s with
          consecutive_focus_needed := s.consecutive_focus_needed + 1,
          alwaysSetFocus :=
            if max_consecutive_focus ≤ s.consecutive_focus_needed + 1 then
              true
            else
              false } := by
  simp [tickBody, lightPhase, h1, h2, h3, h4, hf]

lemma tickBody_identifiedReset (s : MonState) (i : TickInput)
    (r : VpnStateResult) (hf : s.alwaysSetFocus = false)
    (h1 : i.windowLookupFails = false) (h2 : i.minimized = false)
    (h3 : i.lightProbe = some r) (h4 : r.identified = true)
    (h5 : r.status = VpnStatus.connected ∨
          r.status = VpnStatus.disconnected) :
    (tickBody s i).1 = { s with consecutive_focus_needed := 0 } := by
  rcases h5 with h5 | h5 <;>
    simp [tickBody, lightPhase, h1, h2, h3, h4, h5, hf]

lemma monitorTickE_ok (s : MonState) (i : TickInput) :
    monitorTickE s i = Except.ok (monitorTick s i) := by
  unfold monitorTickE monitorTick
  cases htb : tickBody s i with
  | mk s1 e => cases e <;> rfl

/-- Claim C1, counterexample: with both controls inactive and the scraped
text "Duration Bytes Sent Not Connected", the classifier takes the
two-connected-indicators branch (details tag `textConnected`) and returns
Connected even though the disconnected indicators "Not Connected" and
"Connect" were found in the same text, refuting "the classifier only takes
this branch when no disconnected indicator was found". -/
theorem c1_counterexample :
    identify_vpn_state
        ⟨false, false, false, false, "Duration Bytes Sent Not Connected",
         true⟩ =
      ⟨true, VpnStatus.connected,
       Detail.textConnected ["Duration", "Bytes Sent"]⟩ ∧
    foundDisconnected
        ⟨false, false, false, false, "Duration Bytes Sent Not Connected",
         true⟩ =
      ["Not Connected", "Connect"] := by
  constructor
  · decide
  · decide

/-- Claim C1, amended: for every evidence snapshot in which neither control
is both present and enabled, if the scraped text contains at least 2
distinct connected indicators then `identify_vpn_state` returns the
Connected verdict; the branch does not require the absence of disconnected
indicators. -/
theorem c1_claim :
    ∀ ev : Evidence,
      (ev.disconnectButtonFound && ev.disconnectButtonEnabled) = false →
      (ev.connectButtonFound && ev.connectButtonEnabled) = false →
      2 ≤ (foundConnectedText ev.fullText).length →
      (identify_vpn_state ev).identified = true ∧
      (identify_vpn_state ev).status = VpnStatus.connected := by
  intro ev h1 h2 h3
  have h4 : 2 ≤ (foundConnected ev).length :=
    le_trans h3 (foundConnectedText_length_le ev)
  simp only [identify_vpn_state]
  rw [if_neg (by simp [h1]), if_neg (by simp [h2]), if_pos h4]
  exact ⟨rfl, rfl⟩

/-- Claim C1, witness: the amended theorem applied to evidence whose text
"Duration Username" holds exactly the two connected indicators "Duration"
and "Username". -/
theorem c1_witness :
    (identify_vpn_state
        ⟨false, false, false, false, "Duration Username", true⟩).identified =
      true ∧
    (identify_vpn_state
        ⟨false, false, false, false, "Duration Username", true⟩).status =
      VpnStatus.connected :=
  c1_claim ⟨false, false, false, false, "Duration Username", true⟩
    rfl rfl (by decide)

/-- Claim C3, counterexample: when `connect_to_vpn` fails after its bounded
retries (every failure path returns `(None, None)` through the outer
handler), the `__main__` block logs and the script ends normally, so the
process exit status is 0, not non-zero. -/
theorem c3_counterexample :
    script_main AcqOutcome.raisedInternally = MainOutcome.exitCode 0 ∧
    ¬ ∃ c, c ≠ 0 ∧
        script_main AcqOutcome.raisedInternally = MainOutcome.exitCode c := by
  constructor
  · rfl
  · rintro ⟨c, hc, h⟩
    have h0 : script_main AcqOutcome.raisedInternally =
        MainOutcome.exitCode 0 := rfl
    rw [h0] at h
    injection h with h1
    exact hc h1.symm

/-- Claim C3, amended: if the initial acquisition fails after its bounded
retries, the process never enters the monitoring loop, but it terminates
normally with exit status 0 (the script has no `sys.exit` call), not with a
non-zero status; on success it enters monitoring. -/
theorem c3_claim :
    script_main AcqOutcome.raisedInternally = MainOutcome.exitCode 0 ∧
    (∀ h, script_main AcqOutcome.raisedInternally ≠
        MainOutcome.monitoring h) ∧
    (∀ h, script_main (AcqOutcome.ok h) = MainOutcome.monitoring h) := by
  refine ⟨rfl, ?_, ?_⟩
  · intro h hEq
    have h0 : script_main AcqOutcome.raisedInternally =
        MainOutcome.exitCode 0 := rfl
    rw [h0] at hEq
    exact MainOutcome.noConfusion hEq
  · intro h
    rfl

/-- Claim C4 (confirmed): whenever the disconnect control is present and
enabled, `identify_vpn_state` returns the Connected verdict regardless of
every other field; this is the first branch of the decision chain. -/
theorem c4_claim :
    ∀ ev : Evidence,
      ev.disconnectButtonFound = true →
      ev.disconnectButtonEnabled = true →
      (identify_vpn_state ev).identified = true ∧
      (identify_vpn_state ev).status = VpnStatus.connected := by
  intro ev h1 h2
  simp only [identify_vpn_state]
  rw [if_pos (by simp [h1, h2])]
  exact ⟨rfl, rfl⟩

/-- Claim C4, witness: both controls enabled and adversarial disconnected
text still yield Connected. -/
theorem c4_witness :
    (identify_vpn_state
        ⟨true, true, true, true, "Not Connected", true⟩).identified = true ∧
    (identify_vpn_state
        ⟨true, true, true, true, "Not Connected", true⟩).status =
      VpnStatus.connected :=
  c4_claim ⟨true, true, true, true, "Not Connected", true⟩ rfl rfl

/-- Claim C5 (confirmed): when the disconnect control is not both present
and enabled but the connect control is, `identify_vpn_state` returns the
Disconnected verdict regardless of the scraped text; this is the second
branch of the decision chain. -/
theorem c5_claim :
    ∀ ev : Evidence,
      (ev.disconnectButtonFound && ev.disconnectButtonEnabled) = false →
      ev.connectButtonFound = true →
      ev.connectButtonEnabled = true →
      (identify_vpn_state ev).identified = true ∧
      (identify_vpn_state ev).status = VpnStatus.disconnected := by
  intro ev h1 h2 h3
  simp only [identify_vpn_state]
  rw [if_neg (by simp [h1]), if_pos (by simp [h2, h3])]
  exact ⟨rfl, rfl⟩

/-- Claim C5, witness: connect control enabled while the text screams
connected still yields Disconnected. -/
theorem c5_witness :
    (identify_vpn_state
        ⟨true, false, true, true, "VPN Connected Duration Bytes Sent",
         true⟩).identified = true ∧
    (identify_vpn_state
        ⟨true, false, true, true, "VPN Connected Duration Bytes Sent",
         true⟩).status = VpnStatus.disconnected :=
  c5_claim ⟨true, false, true, true, "VPN Connected Duration Bytes Sent",
    true⟩ rfl rfl rfl

/-- Claim C7, counterexample: evidence with indicators on both sides and no
strong indicator among the connected matches ("Disconnect" and "Bytes Sent"
are not in the strong list) is classified Connected by `identify_vpn_state`,
not Unknown: the strong-indicator tie-break of the claim is not part of that
function. -/
theorem c7_counterexample :
    (identify_vpn_state evMixedWeak).status = VpnStatus.connected ∧
    (identify_vpn_state evMixedWeak).identified = true ∧
    foundConnected evMixedWeak = ["Disconnect", "Bytes Sent"] ∧
    foundDisconnected evMixedWeak = ["Not Connected", "Connect"] ∧
    strong_indicators.filter
        (fun ind => (foundConnected evMixedWeak).contains ind) = [] := by
  refine ⟨?_, ?_, ?_, ?_, ?_⟩ <;> decide

/-- Claim C7, amended: the strong-indicator rule lives in the helper
`analyze_vpn_status_from_text` (which `identify_vpn_state` never calls):
for every non-empty text with at least one connected and at least one
disconnected indicator, that helper resolves to Connected exactly when a
strong indicator is among the connected matches, and to Unknown (`none`,
rationale ambiguous) otherwise. -/
theorem c7_claim :
    ∀ t : String,
      t ≠ "" →
      foundConnectedText t ≠ [] →
      foundDisconnectedText t ≠ [] →
      ((strong_indicators.filter
          (fun ind => (foundConnectedText t).contains ind)) ≠ [] →
        (analyze_vpn_status_from_text t).1 = some true) ∧
      ((strong_indicators.filter
          (fun ind => (foundConnectedText t).contains ind)) = [] →
        (analyze_vpn_status_from_text t).1 = none) := by
  intro t h0 hc hd
  simp only [analyze_vpn_status_from_text]
  rw [if_neg h0, if_neg (fun hand => hd hand.2),
    if_neg (fun hand => hc hand.2), if_pos ⟨hc, hd⟩]
  constructor
  · intro hs
    rw [if_pos hs]
  · intro hs
    rw [if_neg (fun hne => hne hs)]

/-- Claim C7, witness: the amended theorem applied to the text
"Duration Connect", whose connected match "Duration" is strong, giving
`some true`. -/
theorem c7_witness :
    (analyze_vpn_status_from_text "Duration Connect").1 = some true :=
  (c7_claim "Duration Connect" (by decide) (by decide) (by decide)).1
    (by decide)

/-- Claim C9 (confirmed, modelled from the spec): writing any verdict other
than Connected is a no-op on the cache, and after such a write on the empty
cache a read still returns `none`, forcing a re-probe. -/
theorem c9_claim :
    ∀ (v : VpnStatus) (now : Nat) (c : CacheState) (n t : Nat),
      v ≠ VpnStatus.connected →
      cacheWrite c v now = c ∧
      cacheRead (cacheWrite cacheInit v now) n t = none := by
  intro v now c n t hv
  constructor
  · unfold cacheWrite
    rw [if_neg hv]
  · unfold cacheWrite
    rw [if_neg hv]
    rfl

/-- Claim C9, witness: writing Disconnected neither overwrites an existing
entry nor produces a readable entry from the empty cache. -/
theorem c9_witness :
    cacheWrite ⟨some VpnStatus.connected, 5⟩ VpnStatus.disconnected 9 =
      ⟨some VpnStatus.connected, 5⟩ ∧
    cacheRead (cacheWrite cacheInit VpnStatus.disconnected 9) 10 60 =
      none :=
  c9_claim VpnStatus.disconnected 9 ⟨some VpnStatus.connected, 5⟩ 10 60
    (by decide)

/-- Claim C10 (confirmed): for every evidence snapshot, the result of
`identify_vpn_state` has `identified = true` exactly when its status is
connected or disconnected, so `identified` is a faithful proxy for a
definite verdict. -/
theorem c10_claim :
    ∀ ev : Evidence,
      (identify_vpn_state ev).identified = true ↔
        ((identify_vpn_state ev).status = VpnStatus.connected ∨
         (identify_vpn_state ev).status = VpnStatus.disconnected) := by
  intro ev
  simp only [identify_vpn_state]
  split_ifs <;> simp

/-- Claim C2, counterexample: three consecutive ticks whose light probe
raises an exception (caught by the inner handler, which increments the
counter but never touches the flag) bring `consecutive_focus_needed` to the
threshold 3 while `ALWAYS_SET_FOCUS` stays false, and a fourth such tick
still leaves it false: reaching the threshold does not by itself switch the
probing mode. -/
theorem c2_counterexample :
    (monitorRun ⟨false, 0, 0⟩ (fun _ => tickRaising) 3).consecutive_focus_needed
        = 3 ∧
    (monitorRun ⟨false, 0, 0⟩ (fun _ => tickRaising) 3).alwaysSetFocus
        = false ∧
    (monitorRun ⟨false, 0, 0⟩ (fun _ => tickRaising) 4).alwaysSetFocus
        = false := by
  refine ⟨?_, ?_, ?_⟩ <;> decide

/-- Claim C2, amended: the permanent switch happens when an unidentified
(non-raising) light-probe result brings the counter to the threshold:
such a tick sets `ALWAYS_SET_FOCUS` to true, and once the flag is true no
later tick of the monitoring loop ever sets it back to false (light-probe
exceptions increment the counter without flipping the flag). -/
theorem c2_claim :
    (∀ (s : MonState) (f : Nat → TickInput) (n k : Nat),
      (monitorRun s f n).alwaysSetFocus = true →
      (monitorRun s f (n + k)).alwaysSetFocus = true) ∧
    (∀ (s : MonState) (i : TickInput) (r : VpnStateResult),
      s.alwaysSetFocus = false →
      i.windowLookupFails = false →
      i.minimized = false →
      i.lightProbe = some r →
      r.identified = false →
      max_consecutive_focus ≤ s.consecutive_focus_needed + 1 →
      (monitorTick s i).alwaysSetFocus = true) := by
  constructor
  · intro s f n k h
    induction k with
    | zero => exact h
    | succ k ih =>
        rw [Nat.add_succ]
        exact monitorTick_flag_mono _ _ ih
  · intro s i r hf h1 h2 h3 h4 hthr
    rw [monitorTick_flag, tickBody_unidentified s i r hf h1 h2 h3 h4]
    simp [hthr]

/-- Claim C2, witness: a supervisor whose flag is already set keeps it set
for five more raising ticks, and from counter 2 one more unidentified light
probe flips the flag. -/
theorem c2_witness :
    (monitorRun ⟨true, 0, 0⟩ (fun _ => tickRaising) (0 + 5)).alwaysSetFocus
        = true ∧
    (monitorTick ⟨false, 2, 0⟩ tickUnknown).alwaysSetFocus = true :=
  ⟨c2_claim.1 ⟨true, 0, 0⟩ (fun _ => tickRaising) 0 5 rfl,
   c2_claim.2 ⟨false, 2, 0⟩ tickUnknown probeUnknown rfl rfl rfl rfl rfl
     (by decide)⟩

/-- Claim C6 (confirmed): starting from counter 0 with the flag unset,
three consecutive unidentified light-probe results raise the counter to
exactly 1, 2, 3 (so the threshold 3 is reached after the third and not
before), and any identified Connected or Disconnected light-probe verdict
resets the counter to 0. -/
theorem c6_claim :
    (∀ (s : MonState) (i1 i2 i3 : TickInput)
        (r1 r2 r3 : VpnStateResult),
      s.alwaysSetFocus = false →
      s.consecutive_focus_needed = 0 →
      i1.windowLookupFails = false → i1.minimized = false →
      i1.lightProbe = some r1 → r1.identified = false →
      i2.windowLookupFails = false → i2.minimized = false →
      i2.lightProbe = some r2 → r2.identified = false →
      i3.windowLookupFails = false → i3.minimized = false →
      i3.lightProbe = some r3 → r3.identified = false →
      (monitorTick s i1).consecutive_focus_needed = 1 ∧
      (monitorTick (monitorTick s i1) i2).consecutive_focus_needed = 2 ∧
      (monitorTick (monitorTick (monitorTick s i1) i2)
          i3).consecutive_focus_needed = 3) ∧
    (∀ (s : MonState) (i : TickInput) (r : VpnStateResult),
      s.alwaysSetFocus = false →
      i.windowLookupFails = false →
      i.minimized = false →
      i.lightProbe = some r →
      r.identified = true →
      (r.status = VpnStatus.connected ∨
       r.status = VpnStatus.disconnected) →
      (monitorTick s i).consecutive_focus_needed = 0) := by
  constructor
  · intro s i1 i2 i3 r1 r2 r3 hf h0 a1 a2 a3 a4 b1 b2 b3 b4 d1 d2 d3 d4
    have e1 := tickBody_unidentified s i1 r1 hf a1 a2 a3 a4
    have c1 : (monitorTick s i1).consecutive_focus_needed =
        s.consecutive_focus_needed + 1 := by
      rw [monitorTick_counter, e1]
    have f1 : (monitorTick s i1).alwaysSetFocus = false := by
      rw [monitorTick_flag, e1]
      simp [h0, max_consecutive_focus]
    have e2 := tickBody_unidentified (monitorTick s i1) i2 r2 f1 b1 b2 b3 b4
    have c2 : (monitorTick (monitorTick s i1) i2).consecutive_focus_needed =
        (monitorTick s i1).consecutive_focus_needed + 1 := by
      rw [monitorTick_counter, e2]
    have f2 : (monitorTick (monitorTick s i1) i2).alwaysSetFocus = false := by
      rw [monitorTick_flag, e2]
      simp [c1, h0, max_consecutive_focus]
    have e3 := tickBody_unidentified (monitorTick (monitorTick s i1) i2) i3
      r3 f2 d1 d2 d3 d4
    have c3 : (monitorTick (monitorTick (monitorTick s i1) i2)
        i3).consecutive_focus_needed =
        (monitorTick (monitorTick s i1) i2).consecutive_focus_needed + 1 := by
      rw [monitorTick_counter, e3]
    refine ⟨?_, ?_, ?_⟩ <;> omega
  · intro s i r hf h1 h2 h3 h4 h5
    rw [monitorTick_counter, tickBody_identifiedReset s i r hf h1 h2 h3 h4 h5]

/-- Claim C6, witness: three unidentified ticks from a fresh supervisor
count 1, 2, 3, and a confident connected light probe resets a counter of 2
to 0. -/
theorem c6_witness :
    ((monitorTick ⟨false, 0, 0⟩ tickUnknown).consecutive_focus_needed = 1 ∧
     (monitorTick (monitorTick ⟨false, 0, 0⟩ tickUnknown)
         tickUnknown).consecutive_focus_needed = 2 ∧
     (monitorTick (monitorTick (monitorTick ⟨false, 0, 0⟩ tickUnknown)
         tickUnknown) tickUnknown).consecutive_focus_needed = 3) ∧
    (monitorTick ⟨false, 2, 0⟩ tickConnected).consecutive_focus_needed = 0 :=
  ⟨c6_claim.1 ⟨false, 0, 0⟩ tickUnknown tickUnknown tickUnknown
      probeUnknown probeUnknown probeUnknown
      rfl rfl rfl rfl rfl rfl rfl rfl rfl rfl rfl rfl rfl rfl,
   c6_claim.2 ⟨false, 2, 0⟩ tickConnected probeConnected
      rfl rfl rfl rfl rfl (Or.inl rfl)⟩

/-- Claim C8 (confirmed): in the exception-explicit semantics, every run of
the monitoring loop of any length produces `.ok` of the state the total
semantics computes, so no exception arising inside a tick ever terminates
the loop or propagates to the caller; moreover whenever the tick body does
raise, the next state is exactly the one produced by the reconnect handler,
which either rebinds the reacquired handle or leaves the state to wait a
full interval. -/
theorem c8_claim :
    (∀ (s : MonState) (f : Nat → TickInput) (n : Nat),
      monitorRunE s f n = Except.ok (monitorRun s f n)) ∧
    (∀ (s : MonState) (i : TickInput),
      ((tickBody s i).2).isSome = true →
      monitorTick s i = reconnectHandler (tickBody s i).1 i) := by
  constructor
  · intro s f n
    induction n with
    | zero => rfl
    | succ n ih =>
        simp only [monitorRunE, monitorRun, ih, monitorTickE_ok]
  · intro s i h
    unfold monitorTick
    cases htb : tickBody s i with
    | mk s1 e =>
      cases e with
      | none =>
          rw [htb] at h
          simp at h
      | some e => rfl

/-- Claim C8, witness: a tick whose window lookup raises is handled by the
reconnect handler, and a two-tick run of such failing ticks still yields an
`.ok` state. -/
theorem c8_witness :
    monitorTick ⟨false, 0, 0⟩ tickLookupFail =
      reconnectHandler (tickBody ⟨false, 0, 0⟩ tickLookupFail).1
        tickLookupFail ∧
    monitorRunE ⟨false, 0, 0⟩ (fun _ => tickLookupFail) 2 =
      Except.ok (monitorRun ⟨false, 0, 0⟩ (fun _ => tickLookupFail) 2) :=
  ⟨c8_claim.2 ⟨false, 0, 0⟩ tickLookupFail (by decide),
   c8_claim.1 ⟨false, 0, 0⟩ (fun _ => tickLookupFail) 2⟩
